import Mathlib

/-
Verification of a single-intent dialog handler (an AWS-Lex style lambda
in `Lambda/lambda_function.py`).  The handler validates two numeric
slots during the dialog stage, looks up a portfolio allocation during
the fulfillment stage, and returns one of three dialog responses
(ElicitSlot, Delegate, Close).

The embedding below follows the Python source line by line:
  * Python dicts with string keys become association lists
    (`List (String × _)`), preserving insertion order and the
    first-occurrence semantics of lookup and update;
  * `float("nan")` from `parse_int` becomes the `PyNum.nan` sentinel,
    whose numeric comparisons are all false, exactly as NaN compares
    in Python;
  * raised exceptions (`KeyError`, `AttributeError`, `Exception`)
    become `Except.error` values of type `PyError`;
  * the response dicts become a record with one optional field per
    key that any of the three builders may set, so that absence of a
    JSON key is observable (`none` = key absent).
-/

set_option autoImplicit false

namespace LambdaFn

/-- Errors the Python code can raise: a dict lookup on a missing key,
an attribute access on `None`, and the explicit `raise Exception` in
`dispatch`. -/
inductive PyError where
  | keyError (key : String)
  | attributeError (attr : String)
  | exception (msg : String)
deriving DecidableEq, Repr

/-- Result of `int(n)` in Python after `parse_int` catches `ValueError`:
either a genuine integer or the `float("nan")` sentinel. -/
inductive PyNum where
  | intVal (n : Int)
  | nan
deriving DecidableEq, Repr

/-- Comparison `x < m` on a parsed value; NaN compares false. -/
def PyNum.lt : PyNum → Int → Bool
  | .intVal n, m => decide (n < m)
  | .nan, _ => false

/-- Comparison `x > m` on a parsed value; NaN compares false. -/
def PyNum.gt : PyNum → Int → Bool
  | .intVal n, m => decide (m < n)
  | .nan, _ => false

/-- Comparison `x <= m` on a parsed value; NaN compares false. -/
def PyNum.le : PyNum → Int → Bool
  | .intVal n, m => decide (n ≤ m)
  | .nan, _ => false

/-- Whitespace stripped by Python `int(str)` before parsing. -/
def isPySpace (c : Char) : Bool :=
  c = ' ' || c = '\t' || c = '\n' || c = '\x0d' || c = '\x0b' || c = '\x0c'

/-- Numeric value of a list of decimal digits. -/
def digitsVal (cs : List Char) : Nat :=
  cs.foldl (fun acc c => acc * 10 + (c.toNat - 48)) 0

/-- Body of a decimal literal after the optional sign: a non-empty
run of ASCII digits. -/
def decDigits? (cs : List Char) : Option Nat :=
  if cs ≠ [] && cs.all Char.isDigit then some (digitsVal cs) else none

/-- Python `int(s)` on a string, as used by `parse_int`: surrounding
whitespace is stripped, an optional sign precedes a non-empty run of
decimal digits; `none` models the `ValueError` raised on anything else
(underscore-grouped and non-ASCII digit literals are not modelled, the
slots in this program never carry them). -/
def pythonInt (s : String) : Option Int :=
  let cs := ((s.data.dropWhile isPySpace).reverse.dropWhile isPySpace).reverse
  match cs with
  | [] => none
  | c :: rest =>
    if c = '-' then (decDigits? rest).map (fun v => -(v : Int))
    else if c = '+' then (decDigits? rest).map (fun v => (v : Int))
    else (decDigits? (c :: rest)).map (fun v => (v : Int))

/-- `parse_int`: converts the value to an integer, returning the NaN
sentinel when `int` raises `ValueError`. -/
def parse_int (n : String) : PyNum :=
  match pythonInt n with
  | some v => .intVal v
  | none => .nan

/-- A `PlainText` message dict (`contentType` / `content`). -/
structure Message where
  contentType : String
  content : String
deriving DecidableEq, Repr

/-- The dict produced by `build_validation_result`: the `message` key is
absent (`none`) when no message content was supplied. -/
structure ValidationResult where
  isValid : Bool
  violatedSlot : Option String
  message : Option Message
deriving DecidableEq, Repr

/-- `build_validation_result`: a validation outcome structured as a Lex
response; the message key is only present when content is given. -/
def build_validation_result (is_valid : Bool) (violated_slot : Option String)
    (message_content : Option String) : ValidationResult :=
  match message_content with
  | none => { isValid := is_valid, violatedSlot := violated_slot, message := none }
  | some content =>
    { isValid := is_valid, violatedSlot := violated_slot,
      message := some { contentType := "PlainText", content := content } }

/-- Message for an age below 0 (two adjacent Python string literals). -/
def invalid_age_message : String :=
  "This is not a valid age, " ++ "please provide a different age."

/-- Message for an age above 65. -/
def retirement_message : String :=
  "Sorry, you are already at retirement age! I cannot recommend a portfolio."

/-- Message for an investment amount at or below 4999. -/
def minimum_amount_message : String :=
  "Your investment amount must be greater than or equal to $5000, "
    ++ "please provide a different investment amount."

/-- The slot mapping of the current intent: slot name to nullable string
value, an insertion-ordered dict. -/
def Slots := List (String × Option String)
deriving instance DecidableEq, Repr for Slots

/-- Session attributes, passed through opaquely. -/
def SessionAttrs := List (String × String)
deriving instance DecidableEq, Repr for SessionAttrs

/-- Python dict lookup `d[k]`: the first entry with the key, raising
`KeyError` when the key is absent. -/
def dictGet : Slots → String → Except PyError (Option String)
  | [], k => .error (.keyError k)
  | (k0, v0) :: rest, k => if k0 = k then .ok v0 else dictGet rest k

/-- Python dict update `d[k] = v`: replaces the value in place when the
key exists, otherwise appends the new entry at the end. -/
def dictSet : Slots → String → Option String → Slots
  | [], k, v => [(k, v)]
  | (k0, v0) :: rest, k, v =>
    if k0 = k then (k0, v) :: rest else (k0, v0) :: dictSet rest k v

/-- The `currentIntent` object of the event: intent name and slots. -/
structure CurrentIntent where
  name : String
  slots : Slots
deriving DecidableEq, Repr

/-- The incoming event (`IntentRequest`): current intent, invocation
source tag and session attributes. -/
structure IntentRequest where
  currentIntent : CurrentIntent
  invocationSource : String
  sessionAttributes : SessionAttrs
deriving DecidableEq, Repr

/-- `validate_data` continued after the age checks (Python falls
through to the investment-amount check and the final valid result). -/
def validate_amount (investment_amount : Option String) : ValidationResult :=
  match investment_amount with
  | some ia =>
    let amount := parse_int ia
    if amount.le 4999 then
      build_validation_result false (some "investmentAmount") (some minimum_amount_message)
    else
      build_validation_result true none none
  | none => build_validation_result true none none

/-- `validate_data`: validates the age (present, and in 0..65 after
parsing) and then the investment amount (present, and at least 5000);
the first failed check returns immediately. -/
def validate_data (age investment_amount : Option String)
    (intent_request : IntentRequest) : ValidationResult :=
  match age with
  | some a =>
    let ageN := parse_int a
    if ageN.lt 0 then
      build_validation_result false (some "age") (some invalid_age_message)
    else if ageN.gt 65 then
      build_validation_result false (some "age") (some retirement_message)
    else validate_amount investment_amount
  | none => validate_amount investment_amount

/-- The fixed risk-level table of `get_risks`. -/
def risk_levels : List (String × String) :=
  [("none", "100% bonds (AGG), 0% equities (SPY)"),
   ("low", "60% bonds (AGG), 40% equities (SPY)"),
   ("medium", "40% bonds (AGG), 60% equities (SPY)"),
   ("high", "20% bonds (AGG), 80% equities (SPY)")]

/-- `get_risks`: dict lookup in the fixed table; `none` models the
`KeyError` Python raises for an unknown key. -/
def get_risks (risk_level : String) : Option String :=
  (risk_levels.find? (fun p => p.1 = risk_level)).map (fun p => p.2)

/-- Python `str.lower()` (ASCII case folding suffices for the keys the
program compares against). -/
def py_lower (s : String) : String :=
  String.mk (s.data.map Char.toLower)

/-- `get_slots`: the slot dict of the current intent. -/
def get_slots (intent_request : IntentRequest) : Slots :=
  intent_request.currentIntent.slots

/-- The `dialogAction` dict of a response: `type` is always present,
every other field is present (`some`) exactly when the builder that
made the response set the corresponding key. -/
structure DialogAction where
  type : String
  intentName : Option String
  slots : Option Slots
  slotToElicit : Option String
  message : Option Message
  fulfillmentState : Option String
deriving DecidableEq, Repr

/-- A response returned to the platform: session attributes plus a
dialog action. -/
structure DialogResponse where
  sessionAttributes : SessionAttrs
  dialogAction : DialogAction
deriving DecidableEq, Repr

/-- `elicit_slot`: an ElicitSlot response re-prompting one slot. -/
def elicit_slot (session_attributes : SessionAttrs) (intent_name : String)
    (slots : Slots) (slot_to_elicit : String) (message : Message) : DialogResponse :=
  { sessionAttributes := session_attributes,
    dialogAction :=
      { type := "ElicitSlot",
        intentName := some intent_name,
        slots := some slots,
        slotToElicit := some slot_to_elicit,
        message := some message,
        fulfillmentState := none } }

/-- `delegate`: a Delegate response carrying only the slots. -/
def delegate (session_attributes : SessionAttrs) (slots : Slots) : DialogResponse :=
  { sessionAttributes := session_attributes,
    dialogAction :=
      { type := "Delegate",
        intentName := none,
        slots := some slots,
        slotToElicit := none,
        message := none,
        fulfillmentState := none } }

/-- `close`: a Close response with a fulfillment state and message. -/
def close (session_attributes : SessionAttrs) (fulfillment_state : String)
    (message : Message) : DialogResponse :=
  { sessionAttributes := session_attributes,
    dialogAction :=
      { type := "Close",
        intentName := none,
        slots := none,
        slotToElicit := none,
        message := some message,
        fulfillmentState := some fulfillment_state } }

/-- `recommend_portfolio`: dialog management and fulfillment for the
one intent.  The four slot fetches at the top raise `KeyError` when a
key is missing; in the fulfillment branch `risk_level.lower()` raises
`AttributeError` when the slot value is null.  `validate_data` always
pairs `isValid = false` with a violated slot and a message
(`validate_data_invalid_shape` below), so the two defensive error
branches inside the invalid case are unreachable. -/
def recommend_portfolio (intent_request : IntentRequest) : Except PyError DialogResponse :=
  match dictGet (get_slots intent_request) "firstName" with
  | .error e => .error e
  | .ok _first_name =>
  match dictGet (get_slots intent_request) "age" with
  | .error e => .error e
  | .ok age =>
  match dictGet (get_slots intent_request) "investmentAmount" with
  | .error e => .error e
  | .ok investment_amount =>
  match dictGet (get_slots intent_request) "riskLevel" with
  | .error e => .error e
  | .ok risk_level =>
  let source := intent_request.invocationSource
  if source = "DialogCodeHook" then
    let slots := get_slots intent_request
    let validation_result := validate_data age investment_amount intent_request
    if validation_result.isValid = false then
      match validation_result.violatedSlot with
      | none => .error (.keyError "violatedSlot")
      | some violated =>
        let slots := dictSet slots violated none
        match validation_result.message with
        | none => .error (.keyError "message")
        | some message =>
          .ok (elicit_slot intent_request.sessionAttributes
                intent_request.currentIntent.name slots violated message)
    else
      let output_session_attributes := intent_request.sessionAttributes
      .ok (delegate output_session_attributes (get_slots intent_request))
  else
    match risk_level with
    | none => .error (.attributeError "lower")
    | some rl =>
      match get_risks (py_lower rl) with
      | none => .error (.keyError (py_lower rl))
      | some desired_risk =>
        .ok (close intent_request.sessionAttributes "Fulfilled"
              { contentType := "PlainText",
                content := "For a " ++ rl ++ "-risk portfolio, invest in " ++ desired_risk })

/-- `dispatch`: routes by intent name; any name other than
`recommendPortfolio` raises. -/
def dispatch (intent_request : IntentRequest) : Except PyError DialogResponse :=
  let intent_name := intent_request.currentIntent.name
  if intent_name = "recommendPortfolio" then
    recommend_portfolio intent_request
  else
    .error (.exception ("Intent with name " ++ intent_name ++ " not supported"))

/-- `lambda_handler`: the entrypoint just dispatches the event; the
context argument is unused. -/
def lambda_handler (event : IntentRequest) (context : Unit) : Except PyError DialogResponse :=
  dispatch event

/-- Shape of an ElicitSlot response dict: the `dialogAction` carries
exactly `type`, `intentName`, `slots`, `slotToElicit` and `message`. -/
def isElicitSlotAction (da : DialogAction) : Prop :=
  da.type = "ElicitSlot" ∧ da.intentName.isSome ∧ da.slots.isSome ∧
    da.slotToElicit.isSome ∧ da.message.isSome ∧ da.fulfillmentState = none

/-- Shape of a Delegate response dict: the `dialogAction` carries
exactly `type` and `slots`. -/
def isDelegateAction (da : DialogAction) : Prop :=
  da.type = "Delegate" ∧ da.intentName = none ∧ da.slots.isSome ∧
    da.slotToElicit = none ∧ da.message = none ∧ da.fulfillmentState = none

/-- Shape of a Close response dict: the `dialogAction` carries exactly
`type`, `fulfillmentState` and `message`. -/
def isCloseAction (da : DialogAction) : Prop :=
  da.type = "Close" ∧ da.intentName = none ∧ da.slots = none ∧
    da.slotToElicit = none ∧ da.message.isSome ∧ da.fulfillmentState.isSome

/-! ## Helper lemmas -/

/-- Looking up the key just set yields the new value. -/
lemma dictGet_dictSet_self (d : Slots) (k : String) (v : Option String) :
    dictGet (dictSet d k v) k = .ok v := by
  induction d with
  | nil => simp [dictSet, dictGet]
  | cons p rest ih =>
    obtain ⟨k0, v0⟩ := p
    by_cases h : k0 = k
    · simp [dictSet, dictGet, h]
    · simp [dictSet, dictGet, h, ih]

/-- Looking up any other key is unaffected by a set. -/
lemma dictGet_dictSet_ne (d : Slots) (k k' : String) (v : Option String)
    (h : k' ≠ k) : dictGet (dictSet d k v) k' = dictGet d k' := by
  induction d with
  | nil =>
    have hne : ¬k = k' := fun hh => h hh.symm
    simp [dictSet, dictGet, hne]
  | cons p rest ih =>
    obtain ⟨k0, v0⟩ := p
    by_cases hk : k0 = k
    · subst hk
      have hne : ¬k0 = k' := fun hh => h hh.symm
      simp [dictSet, dictGet, hne]
    · simp only [dictSet, if_neg hk]
      by_cases hk' : k0 = k'
      · simp [dictGet, hk']
      · simp [dictGet, hk', ih]

/-- A failed dict lookup reports exactly the missing key. -/
lemma dictGet_error (d : Slots) (k : String) (e : PyError)
    (h : dictGet d k = .error e) : e = .keyError k := by
  induction d with
  | nil => simpa [dictGet] using h.symm
  | cons p rest ih =>
    obtain ⟨k0, v0⟩ := p
    by_cases hk : k0 = k
    · simp [dictGet, hk] at h
    · rw [dictGet, if_neg hk] at h
      exact ih h

/-- The amount check never blames the `age` slot. -/
lemma validate_amount_ne_age (x : Option String) :
    (validate_amount x).violatedSlot ≠ some "age" := by
  unfold validate_amount
  cases x with
  | none => simp [build_validation_result]
  | some ia =>
    dsimp only
    split <;> simp [build_validation_result]

/-- When the age checks pass (no `age` violation is reported), the
result of `validate_data` is exactly the result of the amount check. -/
lemma validate_data_eq_amount (age x : Option String) (req : IntentRequest)
    (h : (validate_data age x req).violatedSlot ≠ some "age") :
    validate_data age x req = validate_amount x := by
  unfold validate_data
  cases age with
  | none => rfl
  | some a =>
    dsimp only
    split
    · exfalso
      apply h
      simp [validate_data, *, build_validation_result]
    · split
      · exfalso
        apply h
        simp [validate_data, *, build_validation_result]
      · rfl

/-- Run of the validation stage when validation fails: the handler
nulls the violated slot and returns the ElicitSlot response. -/
lemma rp_hook_invalid (req : IntentRequest) (fn agev iav rlv : Option String)
    (vs : String) (m : Message)
    (hsrc : req.invocationSource = "DialogCodeHook")
    (h1 : dictGet (get_slots req) "firstName" = .ok fn)
    (h2 : dictGet (get_slots req) "age" = .ok agev)
    (h3 : dictGet (get_slots req) "investmentAmount" = .ok iav)
    (h4 : dictGet (get_slots req) "riskLevel" = .ok rlv)
    (hv : validate_data agev iav req =
      { isValid := false, violatedSlot := some vs, message := some m }) :
    recommend_portfolio req =
      .ok (elicit_slot req.sessionAttributes req.currentIntent.name
            (dictSet (get_slots req) vs none) vs m) := by
  unfold recommend_portfolio
  rw [h1, h2, h3, h4, hsrc]
  dsimp only
  rw [hv]
  simp

/-- Run of the validation stage when validation succeeds: the handler
delegates with the unchanged slots and session attributes. -/
lemma rp_hook_valid (req : IntentRequest) (fn agev iav rlv : Option String)
    (hsrc : req.invocationSource = "DialogCodeHook")
    (h1 : dictGet (get_slots req) "firstName" = .ok fn)
    (h2 : dictGet (get_slots req) "age" = .ok agev)
    (h3 : dictGet (get_slots req) "investmentAmount" = .ok iav)
    (h4 : dictGet (get_slots req) "riskLevel" = .ok rlv)
    (hv : (validate_data agev iav req).isValid = true) :
    recommend_portfolio req =
      .ok (delegate req.sessionAttributes (get_slots req)) := by
  unfold recommend_portfolio
  rw [h1, h2, h3, h4, hsrc]
  dsimp only
  simp [hv]

/-- Run of the fulfillment stage with a non-null risk level: the
handler lowercases it and looks it up in the table. -/
lemma rp_fulfill (req : IntentRequest) (fn agev iav : Option String) (rl : String)
    (hsrc : req.invocationSource ≠ "DialogCodeHook")
    (h1 : dictGet (get_slots req) "firstName" = .ok fn)
    (h2 : dictGet (get_slots req) "age" = .ok agev)
    (h3 : dictGet (get_slots req) "investmentAmount" = .ok iav)
    (h4 : dictGet (get_slots req) "riskLevel" = .ok (some rl)) :
    recommend_portfolio req =
      (match get_risks (py_lower rl) with
       | none => .error (.keyError (py_lower rl))
       | some desired_risk =>
         .ok (close req.sessionAttributes "Fulfilled"
               { contentType := "PlainText",
                 content := "For a " ++ rl ++ "-risk portfolio, invest in " ++ desired_risk })) := by
  unfold recommend_portfolio
  rw [h1, h2, h3, h4]
  dsimp only
  rw [if_neg hsrc]

/-- Run of the fulfillment stage with a null risk level: lowercasing
`None` raises `AttributeError`. -/
lemma rp_fulfill_null (req : IntentRequest) (fn agev iav : Option String)
    (hsrc : req.invocationSource ≠ "DialogCodeHook")
    (h1 : dictGet (get_slots req) "firstName" = .ok fn)
    (h2 : dictGet (get_slots req) "age" = .ok agev)
    (h3 : dictGet (get_slots req) "investmentAmount" = .ok iav)
    (h4 : dictGet (get_slots req) "riskLevel" = .ok none) :
    recommend_portfolio req = .error (.attributeError "lower") := by
  unfold recommend_portfolio
  rw [h1, h2, h3, h4]
  dsimp only
  rw [if_neg hsrc]

/-- Evaluation of `validate_data` when the age parses below 0. -/
lemma validate_data_age_low (a : String) (iav : Option String) (req : IntentRequest)
    (n : Int) (hp : pythonInt a = some n) (hn : n < 0) :
    validate_data (some a) iav req =
      { isValid := false, violatedSlot := some "age",
        message := some { contentType := "PlainText", content := invalid_age_message } } := by
  unfold validate_data
  dsimp only
  rw [show parse_int a = .intVal n by simp [parse_int, hp]]
  simp [PyNum.lt, hn, build_validation_result]

/-- Evaluation of `validate_data` when the age parses above 65. -/
lemma validate_data_age_high (a : String) (iav : Option String) (req : IntentRequest)
    (n : Int) (hp : pythonInt a = some n) (hn : 65 < n) :
    validate_data (some a) iav req =
      { isValid := false, violatedSlot := some "age",
        message := some { contentType := "PlainText", content := retirement_message } } := by
  unfold validate_data
  dsimp only
  rw [show parse_int a = .intVal n by simp [parse_int, hp]]
  have h0 : ¬(n < 0) := by omega
  simp [PyNum.lt, PyNum.gt, h0, hn, build_validation_result]

/-- Evaluation of `validate_data` when the age parses into 0..65: the
age checks fall through to the amount check. -/
lemma validate_data_age_pass (a : String) (iav : Option String) (req : IntentRequest)
    (n : Int) (hp : pythonInt a = some n) (h0 : 0 ≤ n) (h65 : n ≤ 65) :
    validate_data (some a) iav req = validate_amount iav := by
  unfold validate_data
  dsimp only
  rw [show parse_int a = .intVal n by simp [parse_int, hp]]
  have hl : ¬(n < 0) := by omega
  have hg : ¬(65 < n) := by omega
  simp [PyNum.lt, PyNum.gt, hl, hg]

/-- Evaluation of `validate_data` when the age does not parse: the NaN
sentinel fails both age comparisons and the age checks fall through. -/
lemma validate_data_age_nan (a : String) (iav : Option String) (req : IntentRequest)
    (hp : pythonInt a = none) :
    validate_data (some a) iav req = validate_amount iav := by
  unfold validate_data
  dsimp only
  rw [show parse_int a = .nan by simp [parse_int, hp]]
  simp [PyNum.lt, PyNum.gt]

/-- Evaluation of the amount check at an amount parsing to 4999 or
less. -/
lemma validate_amount_low (b : String) (m : Int) (hp : pythonInt b = some m)
    (hm : m ≤ 4999) :
    validate_amount (some b) =
      { isValid := false, violatedSlot := some "investmentAmount",
        message := some { contentType := "PlainText", content := minimum_amount_message } } := by
  unfold validate_amount
  dsimp only
  rw [show parse_int b = .intVal m by simp [parse_int, hp]]
  simp [PyNum.le, hm, build_validation_result]

/-- Evaluation of the amount check at an amount parsing to 5000 or
more. -/
lemma validate_amount_high (b : String) (m : Int) (hp : pythonInt b = some m)
    (hm : 5000 ≤ m) :
    validate_amount (some b) = { isValid := true, violatedSlot := none, message := none } := by
  unfold validate_amount
  dsimp only
  rw [show parse_int b = .intVal m by simp [parse_int, hp]]
  have h : ¬(m ≤ 4999) := by omega
  simp [PyNum.le, h, build_validation_result]

/-- Evaluation of the amount check at an unparseable amount: the NaN
sentinel fails the comparison, so the amount passes. -/
lemma validate_amount_nan (b : String) (hp : pythonInt b = none) :
    validate_amount (some b) = { isValid := true, violatedSlot := none, message := none } := by
  unfold validate_amount
  dsimp only
  rw [show parse_int b = .nan by simp [parse_int, hp]]
  simp [PyNum.le, build_validation_result]

/-- The three possible outcomes of the age section of `validate_data`. -/
lemma validate_data_cases (x y : Option String) (r : IntentRequest) :
    validate_data x y r = build_validation_result false (some "age") (some invalid_age_message) ∨
    validate_data x y r = build_validation_result false (some "age") (some retirement_message) ∨
    validate_data x y r = validate_amount y := by
  unfold validate_data
  cases x with
  | none => exact Or.inr (Or.inr rfl)
  | some a =>
    dsimp only
    split
    · exact Or.inl rfl
    · split
      · exact Or.inr (Or.inl rfl)
      · exact Or.inr (Or.inr rfl)

/-- The two possible outcomes of the amount check. -/
lemma validate_amount_cases (y : Option String) :
    validate_amount y = build_validation_result false (some "investmentAmount") (some minimum_amount_message) ∨
    validate_amount y = build_validation_result true none none := by
  unfold validate_amount
  cases y with
  | none => exact Or.inr rfl
  | some b =>
    dsimp only
    split
    · exact Or.inl rfl
    · exact Or.inr rfl

/-- An invalid validation result always carries a violated slot and a
message. -/
lemma validate_data_invalid_shape (x y : Option String) (r : IntentRequest)
    (h : (validate_data x y r).isValid = false) :
    ∃ vs m, validate_data x y r =
      { isValid := false, violatedSlot := some vs, message := some m } := by
  rcases validate_data_cases x y r with hc | hc | hc
  · exact ⟨"age", { contentType := "PlainText", content := invalid_age_message }, hc⟩
  · exact ⟨"age", { contentType := "PlainText", content := retirement_message }, hc⟩
  · rcases validate_amount_cases y with ha | ha
    · exact ⟨"investmentAmount",
        { contentType := "PlainText", content := minimum_amount_message }, hc.trans ha⟩
    · rw [hc, ha] at h
      simp [build_validation_result] at h

/-! ## Claims -/

/-- C1: in the validation stage with the age slot present and parsing
to an integer, an age below 0 yields an ElicitSlot on `age` with the
invalid-age message, an age above 65 yields an ElicitSlot on `age`
with the retirement message, and an age in 0..65 passes the age rule
(no `age` violation is reported). -/
theorem claim1_age_rules (req : IntentRequest) (fn iav rlv : Option String)
    (a : String) (n : Int)
    (hsrc : req.invocationSource = "DialogCodeHook")
    (h1 : dictGet (get_slots req) "firstName" = .ok fn)
    (h2 : dictGet (get_slots req) "age" = .ok (some a))
    (h3 : dictGet (get_slots req) "investmentAmount" = .ok iav)
    (h4 : dictGet (get_slots req) "riskLevel" = .ok rlv)
    (hp : pythonInt a = some n) :
    (n < 0 → recommend_portfolio req =
      .ok (elicit_slot req.sessionAttributes req.currentIntent.name
            (dictSet (get_slots req) "age" none) "age"
            { contentType := "PlainText", content := invalid_age_message })) ∧
    (65 < n → recommend_portfolio req =
      .ok (elicit_slot req.sessionAttributes req.currentIntent.name
            (dictSet (get_slots req) "age" none) "age"
            { contentType := "PlainText", content := retirement_message })) ∧
    (0 ≤ n → n ≤ 65 → (validate_data (some a) iav req).violatedSlot ≠ some "age") := by
  refine ⟨?_, ?_, ?_⟩
  · intro hn
    exact rp_hook_invalid req fn (some a) iav rlv "age" _ hsrc h1 h2 h3 h4
      (validate_data_age_low a iav req n hp hn)
  · intro hn
    exact rp_hook_invalid req fn (some a) iav rlv "age" _ hsrc h1 h2 h3 h4
      (validate_data_age_high a iav req n hp hn)
  · intro hzero h65
    rw [validate_data_age_pass a iav req n hp hzero h65]
    exact validate_amount_ne_age iav

/-- Validation-stage request with age -1, for the C1 witness. -/
def reqAgeNegative : IntentRequest :=
  { currentIntent :=
      { name := "recommendPortfolio",
        slots := [("firstName", some "Sam"), ("age", some "-1"),
                  ("investmentAmount", some "10000"), ("riskLevel", some "low")] },
    invocationSource := "DialogCodeHook",
    sessionAttributes := [] }

/-- Witness for C1: age -1 yields the invalid-age ElicitSlot. -/
theorem claim1_age_rules_witness :
    recommend_portfolio reqAgeNegative =
      .ok (elicit_slot reqAgeNegative.sessionAttributes
            reqAgeNegative.currentIntent.name
            (dictSet (get_slots reqAgeNegative) "age" none) "age"
            { contentType := "PlainText", content := invalid_age_message }) :=
  (claim1_age_rules reqAgeNegative (some "Sam") (some "10000") (some "low")
    "-1" (-1) rfl (by rfl) (by rfl) (by rfl) (by rfl) (by rfl)).1 (by decide)

/-- C2: in the validation stage, when the age slot passes the age rules
and the investmentAmount slot is present and parses to at most 4999,
the handler returns an ElicitSlot on `investmentAmount` with the
minimum-amount message; an amount parsing to 5000 or more passes
validation. -/
theorem claim2_amount_rules (req : IntentRequest) (fn agev rlv : Option String)
    (b : String) (m : Int)
    (hsrc : req.invocationSource = "DialogCodeHook")
    (h1 : dictGet (get_slots req) "firstName" = .ok fn)
    (h2 : dictGet (get_slots req) "age" = .ok agev)
    (h3 : dictGet (get_slots req) "investmentAmount" = .ok (some b))
    (h4 : dictGet (get_slots req) "riskLevel" = .ok rlv)
    (hage : (validate_data agev (some b) req).violatedSlot ≠ some "age")
    (hp : pythonInt b = some m) :
    (m ≤ 4999 → recommend_portfolio req =
      .ok (elicit_slot req.sessionAttributes req.currentIntent.name
            (dictSet (get_slots req) "investmentAmount" none) "investmentAmount"
            { contentType := "PlainText", content := minimum_amount_message })) ∧
    (5000 ≤ m → (validate_data agev (some b) req).isValid = true) := by
  have heq := validate_data_eq_amount agev (some b) req hage
  constructor
  · intro hm
    exact rp_hook_invalid req fn agev (some b) rlv "investmentAmount" _ hsrc h1 h2 h3 h4
      (heq.trans (validate_amount_low b m hp hm))
  · intro hm
    rw [heq, validate_amount_high b m hp hm]

/-- Validation-stage request with amount 4999, for the C2 witness. -/
def reqAmountLow : IntentRequest :=
  { currentIntent :=
      { name := "recommendPortfolio",
        slots := [("firstName", some "Sam"), ("age", some "30"),
                  ("investmentAmount", some "4999"), ("riskLevel", some "low")] },
    invocationSource := "DialogCodeHook",
    sessionAttributes := [] }

/-- Witness for C2: amount 4999 yields the minimum-amount ElicitSlot. -/
theorem claim2_amount_rules_witness :
    recommend_portfolio reqAmountLow =
      .ok (elicit_slot reqAmountLow.sessionAttributes
            reqAmountLow.currentIntent.name
            (dictSet (get_slots reqAmountLow) "investmentAmount" none) "investmentAmount"
            { contentType := "PlainText", content := minimum_amount_message }) :=
  (claim2_amount_rules reqAmountLow (some "Sam") (some "30") (some "low")
    "4999" 4999 rfl (by rfl) (by rfl) (by rfl) (by rfl) (by decide) (by rfl)).1 (by decide)

/-- The table lookup fails for any key other than the four risk
levels. -/
lemma get_risks_unknown (k : String) (h1 : k ≠ "none") (h2 : k ≠ "low")
    (h3 : k ≠ "medium") (h4 : k ≠ "high") : get_risks k = none := by
  unfold get_risks risk_levels
  simp [List.find?, Ne.symm h1, Ne.symm h2, Ne.symm h3, Ne.symm h4]

/-- C3: in the fulfillment stage with a non-null riskLevel slot, when
the lowercased value is one of the four table keys the lookup succeeds
and the handler returns Close/Fulfilled with a message containing the
fixed allocation string for that key (for `low` the string is
`60% bonds (AGG), 40% equities (SPY)`); for any other lowercased value
the lookup fails with a lookup error naming the key and no default is
returned. -/
theorem claim3_fulfillment_lookup (req : IntentRequest) (fn agev iav : Option String)
    (rl : String)
    (hsrc : req.invocationSource ≠ "DialogCodeHook")
    (h1 : dictGet (get_slots req) "firstName" = .ok fn)
    (h2 : dictGet (get_slots req) "age" = .ok agev)
    (h3 : dictGet (get_slots req) "investmentAmount" = .ok iav)
    (h4 : dictGet (get_slots req) "riskLevel" = .ok (some rl)) :
    ((py_lower rl = "none" ∨ py_lower rl = "low" ∨ py_lower rl = "medium" ∨
        py_lower rl = "high") → (get_risks (py_lower rl)).isSome = true) ∧
    (∀ alloc, get_risks (py_lower rl) = some alloc →
      recommend_portfolio req =
        .ok (close req.sessionAttributes "Fulfilled"
              { contentType := "PlainText",
                content := "For a " ++ rl ++ "-risk portfolio, invest in " ++ alloc })) ∧
    (get_risks "low" = some "60% bonds (AGG), 40% equities (SPY)") ∧
    ((py_lower rl ≠ "none" ∧ py_lower rl ≠ "low" ∧ py_lower rl ≠ "medium" ∧
        py_lower rl ≠ "high") →
      get_risks (py_lower rl) = none ∧
        recommend_portfolio req = .error (PyError.keyError (py_lower rl))) := by
  have hrun := rp_fulfill req fn agev iav rl hsrc h1 h2 h3 h4
  refine ⟨?_, ?_, by rfl, ?_⟩
  · intro hkey
    rcases hkey with hk | hk | hk | hk <;> rw [hk] <;> rfl
  · intro alloc ha
    rw [hrun, ha]
  · intro ⟨hk1, hk2, hk3, hk4⟩
    have hnone := get_risks_unknown (py_lower rl) hk1 hk2 hk3 hk4
    exact ⟨hnone, by rw [hrun, hnone]⟩

/-- Fulfillment-stage request with riskLevel `low`, for the C3
witness. -/
def reqFulfillLow : IntentRequest :=
  { currentIntent :=
      { name := "recommendPortfolio",
        slots := [("firstName", some "Sam"), ("age", some "30"),
                  ("investmentAmount", some "10000"), ("riskLevel", some "Low")] },
    invocationSource := "FulfillmentCodeHook",
    sessionAttributes := [] }

/-- Witness for C3: riskLevel `Low` yields Close/Fulfilled containing
the low-risk allocation string. -/
theorem claim3_fulfillment_lookup_witness :
    recommend_portfolio reqFulfillLow =
      .ok (close reqFulfillLow.sessionAttributes "Fulfilled"
            { contentType := "PlainText",
              content := "For a " ++ "Low" ++ "-risk portfolio, invest in " ++
                "60% bonds (AGG), 40% equities (SPY)" }) :=
  (claim3_fulfillment_lookup reqFulfillLow (some "Sam") (some "30") (some "10000")
    "Low" (by decide) (by rfl) (by rfl) (by rfl) (by rfl)).2.1
    "60% bonds (AGG), 40% equities (SPY)" (by rfl)

/-- C4: in the validation stage, when validation succeeds the handler
returns a Delegate response carrying the original slot mapping and the
original session attributes unchanged. -/
theorem claim4_delegate_unchanged (req : IntentRequest) (fn agev iav rlv : Option String)
    (hsrc : req.invocationSource = "DialogCodeHook")
    (h1 : dictGet (get_slots req) "firstName" = .ok fn)
    (h2 : dictGet (get_slots req) "age" = .ok agev)
    (h3 : dictGet (get_slots req) "investmentAmount" = .ok iav)
    (h4 : dictGet (get_slots req) "riskLevel" = .ok rlv)
    (hvalid : (validate_data agev iav req).isValid = true) :
    recommend_portfolio req = .ok (delegate req.sessionAttributes (get_slots req)) ∧
    (delegate req.sessionAttributes (get_slots req)).sessionAttributes =
      req.sessionAttributes ∧
    (delegate req.sessionAttributes (get_slots req)).dialogAction.slots =
      some (get_slots req) :=
  ⟨rp_hook_valid req fn agev iav rlv hsrc h1 h2 h3 h4 hvalid, rfl, rfl⟩

/-- Valid validation-stage request (age 30, amount 5000), for the C4
witness. -/
def reqValid : IntentRequest :=
  { currentIntent :=
      { name := "recommendPortfolio",
        slots := [("firstName", some "Sam"), ("age", some "30"),
                  ("investmentAmount", some "5000"), ("riskLevel", some "low")] },
    invocationSource := "DialogCodeHook",
    sessionAttributes := [("userId", "u1")] }

/-- Witness for C4: age 30 and amount 5000 delegate with the original
slots and session attributes. -/
theorem claim4_delegate_unchanged_witness :
    recommend_portfolio reqValid =
      .ok (delegate reqValid.sessionAttributes (get_slots reqValid)) ∧
    (delegate reqValid.sessionAttributes (get_slots reqValid)).sessionAttributes =
      reqValid.sessionAttributes ∧
    (delegate reqValid.sessionAttributes (get_slots reqValid)).dialogAction.slots =
      some (get_slots reqValid) :=
  claim4_delegate_unchanged reqValid (some "Sam") (some "30") (some "5000") (some "low")
    rfl (by rfl) (by rfl) (by rfl) (by rfl) (by decide)

/-- C5: in the validation stage, when validation fails the returned
ElicitSlot response nulls exactly the violated slot in the slot
mapping (every other entry is looked up unchanged), elicits that slot,
and carries the validation message. -/
theorem claim5_elicit_frame (req : IntentRequest) (fn agev iav rlv : Option String)
    (hsrc : req.invocationSource = "DialogCodeHook")
    (h1 : dictGet (get_slots req) "firstName" = .ok fn)
    (h2 : dictGet (get_slots req) "age" = .ok agev)
    (h3 : dictGet (get_slots req) "investmentAmount" = .ok iav)
    (h4 : dictGet (get_slots req) "riskLevel" = .ok rlv)
    (hinvalid : (validate_data agev iav req).isValid = false) :
    ∃ vs m, (validate_data agev iav req).violatedSlot = some vs ∧
      (validate_data agev iav req).message = some m ∧
      recommend_portfolio req =
        .ok (elicit_slot req.sessionAttributes req.currentIntent.name
              (dictSet (get_slots req) vs none) vs m) ∧
      dictGet (dictSet (get_slots req) vs none) vs = .ok none ∧
      (∀ k, k ≠ vs → dictGet (dictSet (get_slots req) vs none) k =
        dictGet (get_slots req) k) ∧
      (elicit_slot req.sessionAttributes req.currentIntent.name
        (dictSet (get_slots req) vs none) vs m).dialogAction.slotToElicit = some vs ∧
      (elicit_slot req.sessionAttributes req.currentIntent.name
        (dictSet (get_slots req) vs none) vs m).dialogAction.message = some m := by
  obtain ⟨vs, m, hv⟩ := validate_data_invalid_shape agev iav req hinvalid
  exact ⟨vs, m, by rw [hv], by rw [hv],
    rp_hook_invalid req fn agev iav rlv vs m hsrc h1 h2 h3 h4 hv,
    dictGet_dictSet_self (get_slots req) vs none,
    fun k hk => dictGet_dictSet_ne (get_slots req) vs k none hk,
    rfl, rfl⟩

/-- Validation-stage request with age 70, for the C5 witness. -/
def reqAgeHigh : IntentRequest :=
  { currentIntent :=
      { name := "recommendPortfolio",
        slots := [("firstName", some "Sam"), ("age", some "70"),
                  ("investmentAmount", some "10000"), ("riskLevel", some "low")] },
    invocationSource := "DialogCodeHook",
    sessionAttributes := [] }

/-- Witness for C5 at age 70: the retirement violation is elicited with
the violated slot nulled. -/
theorem claim5_elicit_frame_witness :
    ∃ vs m, (validate_data (some "70") (some "10000") reqAgeHigh).violatedSlot = some vs ∧
      (validate_data (some "70") (some "10000") reqAgeHigh).message = some m ∧
      recommend_portfolio reqAgeHigh =
        .ok (elicit_slot reqAgeHigh.sessionAttributes reqAgeHigh.currentIntent.name
              (dictSet (get_slots reqAgeHigh) vs none) vs m) ∧
      dictGet (dictSet (get_slots reqAgeHigh) vs none) vs = .ok none ∧
      (∀ k, k ≠ vs → dictGet (dictSet (get_slots reqAgeHigh) vs none) k =
        dictGet (get_slots reqAgeHigh) k) ∧
      (elicit_slot reqAgeHigh.sessionAttributes reqAgeHigh.currentIntent.name
        (dictSet (get_slots reqAgeHigh) vs none) vs m).dialogAction.slotToElicit = some vs ∧
      (elicit_slot reqAgeHigh.sessionAttributes reqAgeHigh.currentIntent.name
        (dictSet (get_slots reqAgeHigh) vs none) vs m).dialogAction.message = some m :=
  claim5_elicit_frame reqAgeHigh (some "Sam") (some "70") (some "10000") (some "low")
    rfl (by rfl) (by rfl) (by rfl) (by rfl) (by decide)

/-- C6: validation rules run in a fixed order and the first violation
wins: when both the age and the amount violate their rules, the result
blames `age`; and any validation result reports at most one violation,
naming either `age` or `investmentAmount` exactly when it is invalid. -/
theorem claim6_first_violation_wins (req : IntentRequest) (a b : String) (n m : Int)
    (hpa : pythonInt a = some n) (hn : n < 0 ∨ 65 < n)
    (hpb : pythonInt b = some m) (hm : m ≤ 4999) :
    ((validate_data (some a) (some b) req).isValid = false ∧
      (validate_data (some a) (some b) req).violatedSlot = some "age") ∧
    (∀ x y r, ((validate_data x y r).isValid = true ∧
        (validate_data x y r).violatedSlot = none) ∨
      ((validate_data x y r).isValid = false ∧
        ∃ s, (validate_data x y r).violatedSlot = some s ∧
          (s = "age" ∨ s = "investmentAmount"))) := by
  constructor
  · rcases hn with hn | hn
    · rw [validate_data_age_low a (some b) req n hpa hn]
      exact ⟨rfl, rfl⟩
    · rw [validate_data_age_high a (some b) req n hpa hn]
      exact ⟨rfl, rfl⟩
  · intro x y r
    rcases validate_data_cases x y r with hc | hc | hc
    · exact Or.inr ⟨by rw [hc]; rfl, "age", by rw [hc]; exact ⟨rfl, Or.inl rfl⟩⟩
    · exact Or.inr ⟨by rw [hc]; rfl, "age", by rw [hc]; exact ⟨rfl, Or.inl rfl⟩⟩
    · rcases validate_amount_cases y with ha | ha
      · exact Or.inr ⟨by rw [hc, ha]; rfl, "investmentAmount",
          by rw [hc, ha]; exact ⟨rfl, Or.inr rfl⟩⟩
      · exact Or.inl ⟨by rw [hc, ha]; rfl, by rw [hc, ha]; rfl⟩

/-- Witness for C6 at age -5 and amount 100: the age violation wins. -/
theorem claim6_first_violation_wins_witness :
    ((validate_data (some "-5") (some "100") reqValid).isValid = false ∧
      (validate_data (some "-5") (some "100") reqValid).violatedSlot = some "age") ∧
    (∀ x y r, ((validate_data x y r).isValid = true ∧
        (validate_data x y r).violatedSlot = none) ∨
      ((validate_data x y r).isValid = false ∧
        ∃ s, (validate_data x y r).violatedSlot = some s ∧
          (s = "age" ∨ s = "investmentAmount"))) :=
  claim6_first_violation_wins reqValid "-5" "100" (-5) 100 (by rfl)
    (Or.inl (by decide)) (by rfl) (by decide)

/-- C7: an age slot whose non-null value does not parse as an integer
becomes the NaN sentinel, which fails every numeric comparison, so the
slot is effectively treated as valid: the age checks fall through, an
unparseable amount likewise passes, and if the amount check passes the
handler returns Delegate rather than an error. -/
theorem claim7_unparseable_sentinel (req : IntentRequest) (fn iav rlv : Option String)
    (a : String)
    (hsrc : req.invocationSource = "DialogCodeHook")
    (h1 : dictGet (get_slots req) "firstName" = .ok fn)
    (h2 : dictGet (get_slots req) "age" = .ok (some a))
    (h3 : dictGet (get_slots req) "investmentAmount" = .ok iav)
    (h4 : dictGet (get_slots req) "riskLevel" = .ok rlv)
    (hbad : pythonInt a = none) :
    parse_int a = PyNum.nan ∧
    (∀ z, PyNum.nan.lt z = false ∧ PyNum.nan.gt z = false ∧ PyNum.nan.le z = false) ∧
    validate_data (some a) iav req = validate_amount iav ∧
    (∀ b, pythonInt b = none →
      validate_amount (some b) = build_validation_result true none none) ∧
    ((validate_amount iav).isValid = true →
      recommend_portfolio req = .ok (delegate req.sessionAttributes (get_slots req))) := by
  have hd := validate_data_age_nan a iav req hbad
  refine ⟨by simp [parse_int, hbad], fun z => ⟨rfl, rfl, rfl⟩, hd, ?_, ?_⟩
  · intro b hb
    rw [validate_amount_nan b hb]
    rfl
  · intro hvalid
    exact rp_hook_valid req fn (some a) iav rlv hsrc h1 h2 h3 h4 (by rw [hd]; exact hvalid)

/-- Validation-stage request whose age is the unparseable string
`forty`, for the C7 witness. -/
def reqAgeUnparseable : IntentRequest :=
  { currentIntent :=
      { name := "recommendPortfolio",
        slots := [("firstName", some "Sam"), ("age", some "forty"),
                  ("investmentAmount", some "9000"), ("riskLevel", some "low")] },
    invocationSource := "DialogCodeHook",
    sessionAttributes := [] }

/-- Witness for C7: the unparseable age `forty` is treated as valid and
the handler delegates. -/
theorem claim7_unparseable_sentinel_witness :
    recommend_portfolio reqAgeUnparseable =
      .ok (delegate reqAgeUnparseable.sessionAttributes (get_slots reqAgeUnparseable)) :=
  (claim7_unparseable_sentinel reqAgeUnparseable (some "Sam") (some "9000") (some "low")
    "forty" rfl (by rfl) (by rfl) (by rfl) (by rfl) (by rfl)).2.2.2.2 (by decide)

/-- C8: `dispatch` routes the intent name `recommendPortfolio` to the
single supported handler; for any other intent name it raises the
unsupported-intent exception and returns no response. -/
theorem claim8_dispatch_routing (req : IntentRequest) :
    (req.currentIntent.name ≠ "recommendPortfolio" →
      dispatch req = .error (PyError.exception
        ("Intent with name " ++ req.currentIntent.name ++ " not supported"))) ∧
    (req.currentIntent.name = "recommendPortfolio" →
      dispatch req = recommend_portfolio req) := by
  constructor
  · intro h
    unfold dispatch
    dsimp only
    rw [if_neg h]
  · intro h
    unfold dispatch
    dsimp only
    rw [if_pos h]

/-- Request with an unsupported intent name, for the dispatch witness. -/
def reqUnknownIntent : IntentRequest :=
  { currentIntent := { name := "orderPizza", slots := [] },
    invocationSource := "DialogCodeHook",
    sessionAttributes := [] }

/-- Request with the supported intent name, for the dispatch witness. -/
def reqKnownIntent : IntentRequest :=
  { currentIntent :=
      { name := "recommendPortfolio",
        slots := [("firstName", some "Sam"), ("age", some "30"),
                  ("investmentAmount", some "5000"), ("riskLevel", some "low")] },
    invocationSource := "DialogCodeHook",
    sessionAttributes := [] }

/-- Witness for C8 at two concrete events. -/
theorem claim8_dispatch_routing_witness :
    dispatch reqUnknownIntent = .error (PyError.exception
      ("Intent with name " ++ reqUnknownIntent.currentIntent.name ++ " not supported")) ∧
    dispatch reqKnownIntent = recommend_portfolio reqKnownIntent :=
  ⟨(claim8_dispatch_routing reqUnknownIntent).1 (by decide),
   (claim8_dispatch_routing reqKnownIntent).2 (by rfl)⟩

/-- C10: the handler only returns a response under an unstated
precondition on the event: a dict lookup failure is always a key-lookup
error naming the missing key; if any of the four fetched slot keys is
absent the handler propagates that error instead of returning a
response; and in the fulfillment stage a null riskLevel value raises
(lowercasing `None`). -/
theorem claim10_unstated_precondition (req : IntentRequest) :
    (∀ d k e, dictGet d k = .error e → e = PyError.keyError k) ∧
    (∀ e, dictGet (get_slots req) "firstName" = .error e →
      recommend_portfolio req = .error e) ∧
    (∀ fn e, dictGet (get_slots req) "firstName" = .ok fn →
      dictGet (get_slots req) "age" = .error e →
      recommend_portfolio req = .error e) ∧
    (∀ fn agev e, dictGet (get_slots req) "firstName" = .ok fn →
      dictGet (get_slots req) "age" = .ok agev →
      dictGet (get_slots req) "investmentAmount" = .error e →
      recommend_portfolio req = .error e) ∧
    (∀ fn agev iav e, dictGet (get_slots req) "firstName" = .ok fn →
      dictGet (get_slots req) "age" = .ok agev →
      dictGet (get_slots req) "investmentAmount" = .ok iav →
      dictGet (get_slots req) "riskLevel" = .error e →
      recommend_portfolio req = .error e) ∧
    (∀ fn agev iav, req.invocationSource ≠ "DialogCodeHook" →
      dictGet (get_slots req) "firstName" = .ok fn →
      dictGet (get_slots req) "age" = .ok agev →
      dictGet (get_slots req) "investmentAmount" = .ok iav →
      dictGet (get_slots req) "riskLevel" = .ok none →
      recommend_portfolio req = .error (PyError.attributeError "lower")) := by
  refine ⟨fun d k e h => dictGet_error d k e h, ?_, ?_, ?_, ?_, ?_⟩
  · intro e h
    unfold recommend_portfolio
    rw [h]
  · intro fn e hf h
    unfold recommend_portfolio
    rw [hf]
    dsimp only
    rw [h]
  · intro fn agev e hf ha h
    unfold recommend_portfolio
    rw [hf]
    dsimp only
    rw [ha]
    dsimp only
    rw [h]
  · intro fn agev iav e hf ha hi h
    unfold recommend_portfolio
    rw [hf]
    dsimp only
    rw [ha]
    dsimp only
    rw [hi]
    dsimp only
    rw [h]
  · intro fn agev iav hs hf ha hi hr
    exact rp_fulfill_null req fn agev iav hs hf ha hi hr

/-- Request whose slot dict is missing the `age` key, for the C10
witness. -/
def reqMissingAge : IntentRequest :=
  { currentIntent :=
      { name := "recommendPortfolio",
        slots := [("firstName", some "Sam"), ("investmentAmount", some "5000"),
                  ("riskLevel", some "low")] },
    invocationSource := "DialogCodeHook",
    sessionAttributes := [] }

/-- Witness for C10: a missing `age` key makes the handler raise the
corresponding key-lookup error. -/
theorem claim10_unstated_precondition_witness :
    recommend_portfolio reqMissingAge = .error (PyError.keyError "age") :=
  (claim10_unstated_precondition reqMissingAge).2.2.1 (some "Sam")
    (PyError.keyError "age") (by rfl) (by rfl)

/-- C9: every response the handler returns is exactly one of the three
variants ElicitSlot, Delegate or Close (tagged by the action type), and
it carries only the fields belonging to the chosen variant. -/
theorem claim9_response_variants (event : IntentRequest) (resp : DialogResponse)
    (h : lambda_handler event () = .ok resp) :
    (isElicitSlotAction resp.dialogAction ∧ ¬isDelegateAction resp.dialogAction ∧
        ¬isCloseAction resp.dialogAction) ∨
    (isDelegateAction resp.dialogAction ∧ ¬isElicitSlotAction resp.dialogAction ∧
        ¬isCloseAction resp.dialogAction) ∨
    (isCloseAction resp.dialogAction ∧ ¬isElicitSlotAction resp.dialogAction ∧
        ¬isDelegateAction resp.dialogAction) := by
  unfold lambda_handler dispatch at h
  dsimp only at h
  by_cases hn : event.currentIntent.name = "recommendPortfolio"
  case neg =>
    rw [if_neg hn] at h
    exact absurd h (by simp)
  rw [if_pos hn] at h
  unfold recommend_portfolio at h
  by_cases hs : event.invocationSource = "DialogCodeHook"
  · simp only [hs, reduceIte] at h
    repeat' split at h
    all_goals simp only [Except.ok.injEq, reduceCtorEq] at h
    all_goals subst h
    · exact Or.inl (by
        simp [elicit_slot, isElicitSlotAction, isDelegateAction, isCloseAction])
    · exact Or.inr (Or.inl (by
        simp [delegate, isElicitSlotAction, isDelegateAction, isCloseAction]))
  · simp only [if_neg hs] at h
    repeat' split at h
    all_goals simp only [Except.ok.injEq, reduceCtorEq] at h
    all_goals subst h
    exact Or.inr (Or.inr (by
      simp [close, isElicitSlotAction, isDelegateAction, isCloseAction]))

/-- Request used by the C9 witness: a valid validation-stage event. -/
def reqVariants : IntentRequest :=
  { currentIntent :=
      { name := "recommendPortfolio",
        slots := [("firstName", some "Sam"), ("age", some "30"),
                  ("investmentAmount", some "5000"), ("riskLevel", some "low")] },
    invocationSource := "DialogCodeHook",
    sessionAttributes := [] }

/-- The response the handler produces for `reqVariants`. -/
def respVariants : DialogResponse :=
  delegate [] [("firstName", some "Sam"), ("age", some "30"),
               ("investmentAmount", some "5000"), ("riskLevel", some "low")]

/-- Witness for C9 at a concrete event and its concrete response. -/
theorem claim9_response_variants_witness :
    (isElicitSlotAction respVariants.dialogAction ∧
        ¬isDelegateAction respVariants.dialogAction ∧
        ¬isCloseAction respVariants.dialogAction) ∨
    (isDelegateAction respVariants.dialogAction ∧
        ¬isElicitSlotAction respVariants.dialogAction ∧
        ¬isCloseAction respVariants.dialogAction) ∨
    (isCloseAction respVariants.dialogAction ∧
        ¬isElicitSlotAction respVariants.dialogAction ∧
        ¬isDelegateAction respVariants.dialogAction) :=
  claim9_response_variants reqVariants respVariants (by rfl)

end LambdaFn
